import Mathlib

/-!
Shallow embedding of the Todo/Notes CRUD service in `backend/main.py`.

The service keeps two tables, `todos` and `notes`, in PostgreSQL and exposes
REST handlers over them.  We model the store as explicit lists of rows plus
the `SERIAL` counters, timestamps as natural numbers, and each handler as a
pure function from a store (and, where the handler reads the clock, a
`now : Nat` standing for `CURRENT_TIMESTAMP`) to an `Except`-style result.
`HTTPException(404, detail)` becomes `ApiError.notFound detail`.
-/

/-- A row of the `todos` table (`CREATE TABLE todos` in `startup`). -/
structure Todo where
  id : Nat
  title : String
  description : Option String
  completed : Bool
  created_at : Nat
  updated_at : Nat
deriving Repr, DecidableEq

/-- A row of the `notes` table (`CREATE TABLE notes` in `startup`). -/
structure Note where
  id : Nat
  todo_id : Nat
  content : String
  created_at : Nat
deriving Repr, DecidableEq

/-- The relational store: both tables plus the `SERIAL` id counters. -/
structure DB where
  todos : List Todo
  notes : List Note
  nextTodoId : Nat
  nextNoteId : Nat
deriving Repr, DecidableEq

/-- The store right after `startup` creates the empty tables
(`SERIAL` columns start at 1). -/
def DB.empty : DB := { todos := [], notes := [], nextTodoId := 1, nextNoteId := 1 }

/-- `raise HTTPException(status_code=404, detail=...)` in the handlers. -/
inductive ApiError where
  | notFound (detail : String)
deriving Repr, DecidableEq

/-- Request body of `POST /api/todos` (`class TodoCreate`): `title` is a
required string (any string, the empty one included), `description`
optional. -/
structure TodoCreate where
  title : String
  description : Option String := none
deriving Repr, DecidableEq

/-- Request body of `PATCH /api/todos/{id}` (`class TodoUpdate`): every field
optional; `none` is an absent field. -/
structure TodoUpdate where
  title : Option String := none
  description : Option String := none
  completed : Option Bool := none
deriving Repr, DecidableEq

/-- `ORDER BY created_at DESC` on todos: row `a` may precede row `b` when
`a.created_at ≥ b.created_at`. -/
def createdDescTodo (a b : Todo) : Prop := b.created_at ≤ a.created_at

instance : DecidableRel createdDescTodo := fun _ _ => Nat.decLe _ _

instance : IsTotal Todo createdDescTodo :=
  ⟨fun a b => (Nat.le_total b.created_at a.created_at).imp id id⟩

instance : IsTrans Todo createdDescTodo :=
  ⟨fun _ _ _ h h' => Nat.le_trans h' h⟩

/-- `ORDER BY created_at DESC` on notes. -/
def createdDescNote (a b : Note) : Prop := b.created_at ≤ a.created_at

instance : DecidableRel createdDescNote := fun _ _ => Nat.decLe _ _

instance : IsTotal Note createdDescNote :=
  ⟨fun a b => (Nat.le_total b.created_at a.created_at).imp id id⟩

instance : IsTrans Note createdDescNote :=
  ⟨fun _ _ _ h h' => Nat.le_trans h' h⟩

/-- `GET /api/todos` (`get_todos`): `SELECT * FROM todos` with an optional
`WHERE completed = $1`, then `ORDER BY created_at DESC`. -/
def get_todos (db : DB) (completed : Option Bool) : List Todo :=
  let rows := match completed with
    | some b => db.todos.filter (fun t => t.completed == b)
    | none => db.todos
  List.insertionSort createdDescTodo rows

/-- `GET /api/todos/{todo_id}` (`get_todo`): `SELECT * FROM todos WHERE
id = $1`, 404 `"Todo not found"` when no row. -/
def get_todo (db : DB) (todo_id : Nat) : Except ApiError Todo :=
  match db.todos.find? (fun t => t.id == todo_id) with
  | none => .error (.notFound "Todo not found")
  | some row => .ok row

/-- `POST /api/todos` (`create_todo`): `INSERT INTO todos (title, description)
VALUES ($1, $2) RETURNING *`.  The handler performs no validation of its own:
any string `title` (empty included) reaches the INSERT.  The omitted columns
take their schema defaults: `completed` FALSE, `created_at` and `updated_at`
both `CURRENT_TIMESTAMP` of the statement, here `now`. -/
def create_todo (db : DB) (todo : TodoCreate) (now : Nat) : Todo × DB :=
  let row : Todo :=
    { id := db.nextTodoId, title := todo.title, description := todo.description,
      completed := false, created_at := now, updated_at := now }
  (row, { db with todos := db.todos ++ [row], nextTodoId := db.nextTodoId + 1 })

/-- `PATCH /api/todos/{todo_id}` (`update_todo`): fetch the row, 404 if
absent; collect an assignment for each field present in the body; if none,
return the existing row untouched; otherwise run the UPDATE, which also sets
`updated_at = CURRENT_TIMESTAMP` (`now`), and leaves every column without an
assignment at its prior value. -/
def update_todo (db : DB) (todo_id : Nat) (todo : TodoUpdate) (now : Nat) :
    Except ApiError (Todo × DB) :=
  match db.todos.find? (fun t => t.id == todo_id) with
  | none => .error (.notFound "Todo not found")
  | some existing =>
    if todo.title = none ∧ todo.description = none ∧ todo.completed = none then
      .ok (existing, db)
    else
      let row : Todo :=
        { id := existing.id
          title := todo.title.getD existing.title
          description := match todo.description with
            | some d => some d
            | none => existing.description
          completed := todo.completed.getD existing.completed
          created_at := existing.created_at
          updated_at := now }
      .ok (row, { db with
        todos := db.todos.map (fun t => if t.id == todo_id then row else t) })

/-- `DELETE /api/todos/{todo_id}` (`delete_todo`): `DELETE FROM todos WHERE
id = $1`; the driver result `"DELETE 0"` (no row matched) becomes 404
`"Todo not found"`.  The schema's `ON DELETE CASCADE` on `notes.todo_id`
removes every note of the deleted todo. -/
def delete_todo (db : DB) (todo_id : Nat) : Except ApiError DB :=
  let remaining := db.todos.filter (fun t => !(t.id == todo_id))
  if remaining.length = db.todos.length then
    .error (.notFound "Todo not found")
  else
    .ok { db with todos := remaining,
                  notes := db.notes.filter (fun n => !(n.todo_id == todo_id)) }

/-- `GET /api/todos/{todo_id}/notes` (`get_notes`): first `SELECT id FROM
todos WHERE id = $1` and 404 `"Todo not found"` if absent, then the notes of
that todo ordered by `created_at DESC`. -/
def get_notes (db : DB) (todo_id : Nat) : Except ApiError (List Note) :=
  if db.todos.any (fun t => t.id == todo_id) then
    .ok (List.insertionSort createdDescNote
      (db.notes.filter (fun n => n.todo_id == todo_id)))
  else
    .error (.notFound "Todo not found")

/-- `POST /api/todos/{todo_id}/notes` (`create_note`): verify the todo exists
(404 `"Todo not found"` otherwise), then `INSERT INTO notes (todo_id, content)
VALUES ($1, $2) RETURNING *`.  As with todos, the handler does not validate
`content`: any string, empty included, is inserted. -/
def create_note (db : DB) (todo_id : Nat) (content : String) (now : Nat) :
    Except ApiError (Note × DB) :=
  if db.todos.any (fun t => t.id == todo_id) then
    let row : Note :=
      { id := db.nextNoteId, todo_id := todo_id, content := content,
        created_at := now }
    .ok (row, { db with notes := db.notes ++ [row],
                        nextNoteId := db.nextNoteId + 1 })
  else
    .error (.notFound "Todo not found")

/-- `PATCH /api/todos/{todo_id}/notes/{note_id}` (`update_note`): a single
`UPDATE notes SET content = $1 WHERE id = $2 AND todo_id = $3 RETURNING *`;
when no row matches both ids the handler raises 404 `"Note not found"` —
there is no separate existence check of the todo. -/
def update_note (db : DB) (todo_id note_id : Nat) (content : String) :
    Except ApiError (Note × DB) :=
  match db.notes.find? (fun n => n.id == note_id && n.todo_id == todo_id) with
  | none => .error (.notFound "Note not found")
  | some n =>
    let row : Note := { n with content := content }
    .ok (row, { db with
      notes := db.notes.map (fun m =>
        if m.id == note_id && m.todo_id == todo_id then
          { m with content := content }
        else m) })

/-- `DELETE /api/todos/{todo_id}/notes/{note_id}` (`delete_note`):
`DELETE FROM notes WHERE id = $1 AND todo_id = $2`; the result `"DELETE 0"`
becomes 404 `"Note not found"` — again no separate check of the todo. -/
def delete_note (db : DB) (todo_id note_id : Nat) : Except ApiError DB :=
  let remaining :=
    db.notes.filter (fun n => !(n.id == note_id && n.todo_id == todo_id))
  if remaining.length = db.notes.length then
    .error (.notFound "Note not found")
  else
    .ok { db with notes := remaining }

/-- Response of `GET /api/stats`.  `COUNT(*)` is never NULL, but
`SUM(...)` over zero rows is NULL — hence the `Option` on the two sums. -/
structure Stats where
  total_todos : Nat
  completed_todos : Option Nat
  pending_todos : Option Nat
  total_notes : Nat
deriving Repr, DecidableEq

/-- `GET /api/stats` (`get_stats`): one aggregate query over `todos` with a
scalar subquery counting `notes`.  `SUM(CASE WHEN completed THEN 1 ELSE 0
END)` sums an indicator over the rows and is NULL when `todos` is empty;
`COUNT(*)` and the subquery's `COUNT(*)` are plain counts. -/
def get_stats (db : DB) : Stats :=
  { total_todos := db.todos.length
    completed_todos :=
      if db.todos.isEmpty then none
      else some ((db.todos.map (fun t => if t.completed then 1 else 0)).sum)
    pending_todos :=
      if db.todos.isEmpty then none
      else some ((db.todos.map (fun t => if !t.completed then 1 else 0)).sum)
    total_notes := db.notes.length }

/-- One request against the service: the handler arguments of a mutating
endpoint, without the clock.  Used to reason about sequences of requests. -/
inductive Op where
  | createTodo (todo : TodoCreate)
  | updateTodo (tid : Nat) (u : TodoUpdate)
  | deleteTodo (tid : Nat)
  | createNote (tid : Nat) (content : String)
  | updateNote (tid : Nat) (nid : Nat) (content : String)
  | deleteNote (tid : Nat) (nid : Nat)
deriving Repr

/-- The store after one request handled at time `now`; a handler that raises
404 leaves the store as it was. -/
def applyOp (db : DB) (op : Op) (now : Nat) : DB :=
  match op with
  | .createTodo t => (create_todo db t now).2
  | .updateTodo tid u =>
    match update_todo db tid u now with
    | .ok (_, db') => db'
    | .error _ => db
  | .deleteTodo tid =>
    match delete_todo db tid with
    | .ok db' => db'
    | .error _ => db
  | .createNote tid c =>
    match create_note db tid c now with
    | .ok (_, db') => db'
    | .error _ => db
  | .updateNote tid nid c =>
    match update_note db tid nid c with
    | .ok (_, db') => db'
    | .error _ => db
  | .deleteNote tid nid =>
    match delete_note db tid nid with
    | .ok db' => db'
    | .error _ => db

/-- The store after a sequence of timestamped requests. -/
def runOps (db : DB) : List (Op × Nat) → DB
  | [] => db
  | (op, now) :: rest => runOps (applyOp db op now) rest

/-- Every todo's `updated_at` is at least its `created_at`. -/
def tsInv (db : DB) : Prop := ∀ t ∈ db.todos, t.created_at ≤ t.updated_at

/-- Every todo in the store was created no later than `clock`. -/
def timeBound (db : DB) (clock : Nat) : Prop :=
  ∀ t ∈ db.todos, t.created_at ≤ clock

/-- A two-request run: create a todo at time 1, mark it completed at time 5. -/
def sampleOps : List (Op × Nat) :=
  [(Op.createTodo { title := "a" }, 1),
   (Op.updateTodo 1 { completed := some true }, 5)]

/-- A sample store with two todos and one note under each, used to
instantiate the general theorems on concrete input. -/
def twoTodoDB : DB :=
  { todos :=
      [{ id := 1, title := "a", description := none, completed := false,
         created_at := 0, updated_at := 0 },
       { id := 2, title := "b", description := none, completed := false,
         created_at := 1, updated_at := 1 }],
    notes :=
      [{ id := 1, todo_id := 1, content := "n1", created_at := 0 },
       { id := 2, todo_id := 2, content := "n2", created_at := 1 }],
    nextTodoId := 3, nextNoteId := 3 }

/-! ## Helper lemmas -/

/-- A summed boolean indicator counts exactly the rows satisfying the
predicate (the semantics of `SUM(CASE WHEN p THEN 1 ELSE 0 END)`). -/
theorem sum_map_indicator_eq_length_filter {α : Type} (p : α → Bool) (l : List α) :
    (l.map (fun a => if p a then 1 else 0)).sum = (l.filter p).length := by
  induction l with
  | nil => rfl
  | cons a l ih =>
    cases h : p a <;>
      simp [List.filter_cons, h, ih, Nat.add_comm]

/-! ## C1 -/

/-- Claim C1, counterexample: a create-todo request whose title is the empty string
is NOT rejected — starting from the empty store it inserts a todo row whose
title is `""`; a create-note request with empty content on that todo likewise
inserts a note row whose content is `""`.  So the operations are not
"rejected with a validation error before any SQL statement executes". -/
theorem C1_empty_title_inserted_counterexample :
    (create_todo DB.empty { title := "" } 0).2.todos.length = 1 ∧
    (create_todo DB.empty { title := "" } 0).2.todos.map Todo.title = [""] ∧
    create_note (create_todo DB.empty { title := "" } 0).2 1 "" 0 =
      Except.ok
        ({ id := 1, todo_id := 1, content := "", created_at := 0 },
         { todos := [{ id := 1, title := "", description := none,
                       completed := false, created_at := 0, updated_at := 0 }],
           notes := [{ id := 1, todo_id := 1, content := "", created_at := 0 }],
           nextTodoId := 2, nextNoteId := 2 }) :=
  ⟨rfl, rfl, rfl⟩

/-- Claim C1 amended: the handlers perform no emptiness validation.  A create-todo
request with an empty title always succeeds and appends a row whose title is
the empty string, and on any existing todo a create-note request with empty
content succeeds and appends a row whose content is the empty string.
(Only a *missing* field is rejected, by request-body parsing outside the
handlers.) -/
theorem C1_no_emptiness_validation (db : DB) (now tid : Nat)
    (hexists : db.todos.any (fun t => t.id == tid) = true) :
    (create_todo db { title := "" } now).1.title = "" ∧
    (create_todo db { title := "" } now).2.todos =
      db.todos ++ [(create_todo db { title := "" } now).1] ∧
    create_note db tid "" now =
      Except.ok
        ({ id := db.nextNoteId, todo_id := tid, content := "", created_at := now },
         { db with
             notes := db.notes ++
               [{ id := db.nextNoteId, todo_id := tid, content := "",
                  created_at := now }],
             nextNoteId := db.nextNoteId + 1 }) := by
  refine ⟨rfl, rfl, ?_⟩
  unfold create_note
  rw [hexists]
  exact rfl

/-- Witness for C1 amended, at a store holding the single todo with id 1. -/
theorem C1_no_emptiness_validation_witness :
    ({ todos := [{ id := 1, title := "t", description := none,
                   completed := false, created_at := 0, updated_at := 0 }],
       notes := [], nextTodoId := 2, nextNoteId := 1 } : DB).todos.any
        (fun t => t.id == 1) = true ∧
    (create_todo
      { todos := [{ id := 1, title := "t", description := none,
                    completed := false, created_at := 0, updated_at := 0 }],
        notes := [], nextTodoId := 2, nextNoteId := 1 } { title := "" } 3).1.title = "" :=
  ⟨by decide,
   (C1_no_emptiness_validation
      { todos := [{ id := 1, title := "t", description := none,
                    completed := false, created_at := 0, updated_at := 0 }],
        notes := [], nextTodoId := 2, nextNoteId := 1 } 3 1 (by decide)).1⟩

/-! ## C2 -/

/-- Claim C2, counterexample: on the empty store the statistics query returns NULL
(not zero) for `completed_todos` and `pending_todos`, because `SUM` over zero
rows is NULL; only the two `COUNT(*)` values are 0. -/
theorem C2_empty_store_nulls_counterexample :
    get_stats DB.empty =
      { total_todos := 0, completed_todos := none, pending_todos := none,
        total_notes := 0 } ∧
    (none : Option Nat) ≠ some 0 :=
  ⟨rfl, by decide⟩

/-- Claim C2 amended: `total_todos` is always the number of todos and `total_notes`
the number of notes (zero included, never NULL); when the store holds at
least one todo, `completed_todos` counts the todos with `completed = true`
and `pending_todos` those with `completed = false`; when the store holds no
todos those two sums are NULL rather than zero. -/
theorem C2_stats_counts (db : DB) (h : db.todos ≠ []) :
    (get_stats db).total_todos = db.todos.length ∧
    (get_stats db).completed_todos =
      some ((db.todos.filter (fun t => t.completed)).length) ∧
    (get_stats db).pending_todos =
      some ((db.todos.filter (fun t => !t.completed)).length) ∧
    (get_stats db).total_notes = db.notes.length := by
  have hne : db.todos.isEmpty = false := by
    cases hl : db.todos with
    | nil => exact absurd hl h
    | cons a l => rfl
  refine ⟨rfl, ?_, ?_, rfl⟩ <;>
    simp only [get_stats, hne, Bool.false_eq_true, if_false,
      sum_map_indicator_eq_length_filter]

/-- Witness for C2 amended: three todos (two completed, one pending) and
five notes give `total_todos = 3, completed_todos = 2, pending_todos = 1,
total_notes = 5`. -/
theorem C2_stats_counts_witness :
    ({ todos :=
         [{ id := 1, title := "a", description := none, completed := true,
            created_at := 0, updated_at := 0 },
          { id := 2, title := "b", description := none, completed := true,
            created_at := 1, updated_at := 1 },
          { id := 3, title := "c", description := none, completed := false,
            created_at := 2, updated_at := 2 }],
       notes :=
         [{ id := 1, todo_id := 1, content := "n1", created_at := 0 },
          { id := 2, todo_id := 1, content := "n2", created_at := 1 },
          { id := 3, todo_id := 2, content := "n3", created_at := 2 },
          { id := 4, todo_id := 3, content := "n4", created_at := 3 },
          { id := 5, todo_id := 3, content := "n5", created_at := 4 }],
       nextTodoId := 4, nextNoteId := 6 } : DB).todos ≠ [] ∧
    (get_stats
      { todos :=
         [{ id := 1, title := "a", description := none, completed := true,
            created_at := 0, updated_at := 0 },
          { id := 2, title := "b", description := none, completed := true,
            created_at := 1, updated_at := 1 },
          { id := 3, title := "c", description := none, completed := false,
            created_at := 2, updated_at := 2 }],
        notes :=
         [{ id := 1, todo_id := 1, content := "n1", created_at := 0 },
          { id := 2, todo_id := 1, content := "n2", created_at := 1 },
          { id := 3, todo_id := 2, content := "n3", created_at := 2 },
          { id := 4, todo_id := 3, content := "n4", created_at := 3 },
          { id := 5, todo_id := 3, content := "n5", created_at := 4 }],
        nextTodoId := 4, nextNoteId := 6 }).total_todos = 3 :=
  ⟨by decide,
   (C2_stats_counts
      { todos :=
         [{ id := 1, title := "a", description := none, completed := true,
            created_at := 0, updated_at := 0 },
          { id := 2, title := "b", description := none, completed := true,
            created_at := 1, updated_at := 1 },
          { id := 3, title := "c", description := none, completed := false,
            created_at := 2, updated_at := 2 }],
        notes :=
         [{ id := 1, todo_id := 1, content := "n1", created_at := 0 },
          { id := 2, todo_id := 1, content := "n2", created_at := 1 },
          { id := 3, todo_id := 2, content := "n3", created_at := 2 },
          { id := 4, todo_id := 3, content := "n4", created_at := 3 },
          { id := 5, todo_id := 3, content := "n5", created_at := 4 }],
        nextTodoId := 4, nextNoteId := 6 } (by decide)).1⟩

/-! ## C4 -/

/-- Claim C4: a partial update of an existing todo that supplies zero fields
succeeds, returns the todo's current state, and changes nothing — the store
and in particular `updated_at` are untouched. -/
theorem C4_empty_update_noop (db : DB) (tid now : Nat) (existing : Todo)
    (hfind : db.todos.find? (fun t => t.id == tid) = some existing) :
    update_todo db tid {} now = Except.ok (existing, db) := by
  unfold update_todo
  rw [hfind]
  simp

/-- Witness for C4, at a store holding the single todo with id 1. -/
theorem C4_empty_update_noop_witness :
    ({ todos := [{ id := 1, title := "t", description := none,
                   completed := false, created_at := 0, updated_at := 0 }],
       notes := [], nextTodoId := 2, nextNoteId := 1 } : DB).todos.find?
        (fun t => t.id == 1) =
      some { id := 1, title := "t", description := none, completed := false,
             created_at := 0, updated_at := 0 } ∧
    update_todo
      { todos := [{ id := 1, title := "t", description := none,
                    completed := false, created_at := 0, updated_at := 0 }],
        notes := [], nextTodoId := 2, nextNoteId := 1 } 1 {} 7 =
      Except.ok
        ({ id := 1, title := "t", description := none, completed := false,
           created_at := 0, updated_at := 0 },
         { todos := [{ id := 1, title := "t", description := none,
                       completed := false, created_at := 0, updated_at := 0 }],
           notes := [], nextTodoId := 2, nextNoteId := 1 }) :=
  ⟨by decide,
   C4_empty_update_noop
     { todos := [{ id := 1, title := "t", description := none,
                   completed := false, created_at := 0, updated_at := 0 }],
       notes := [], nextTodoId := 2, nextNoteId := 1 } 1 7
     { id := 1, title := "t", description := none, completed := false,
       created_at := 0, updated_at := 0 } (by decide)⟩

/-! ## C8 -/

/-- Claim C8: a create-todo request supplying only a title yields a todo with
`completed = false`, `description = null`, and `created_at = updated_at`
(both columns default to the same `CURRENT_TIMESTAMP` of the INSERT). -/
theorem C8_create_todo_defaults (db : DB) (title : String) (now : Nat) :
    (create_todo db { title := title } now).1.completed = false ∧
    (create_todo db { title := title } now).1.description = none ∧
    (create_todo db { title := title } now).1.created_at =
      (create_todo db { title := title } now).1.updated_at :=
  ⟨rfl, rfl, rfl⟩

/-! ## C3 -/

/-- Claim C3: a partial update of an existing todo that supplies at least one
field replaces exactly the supplied fields and refreshes `updated_at` to the
statement's `CURRENT_TIMESTAMP`; every field not supplied — `id` and
`created_at` included — keeps its prior value and is never reset to null or a
default; todos with a different id are untouched, and the notes table is
untouched. -/
theorem C3_update_todo_frame (db : DB) (tid now : Nat) (u : TodoUpdate)
    (existing : Todo)
    (hfind : db.todos.find? (fun t => t.id == tid) = some existing)
    (hsome : ¬(u.title = none ∧ u.description = none ∧ u.completed = none)) :
    ∃ row db', update_todo db tid u now = Except.ok (row, db') ∧
      row.id = existing.id ∧
      row.created_at = existing.created_at ∧
      row.updated_at = now ∧
      (∀ s, u.title = some s → row.title = s) ∧
      (u.title = none → row.title = existing.title) ∧
      (∀ s, u.description = some s → row.description = some s) ∧
      (u.description = none → row.description = existing.description) ∧
      (∀ b, u.completed = some b → row.completed = b) ∧
      (u.completed = none → row.completed = existing.completed) ∧
      db'.todos = db.todos.map (fun t => if t.id == tid then row else t) ∧
      db'.notes = db.notes ∧
      (∀ t ∈ db.todos, (t.id == tid) = false → t ∈ db'.todos) := by
  unfold update_todo
  rw [hfind]
  simp only [if_neg hsome]
  refine ⟨_, _, rfl, rfl, rfl, rfl, ?_, ?_, ?_, ?_, ?_, ?_, rfl, rfl, ?_⟩
  · intro s hs; simp [hs]
  · intro hs; simp [hs]
  · intro s hs; simp [hs]
  · intro hs; simp [hs]
  · intro b hb; simp [hb]
  · intro hb; simp [hb]
  · intro t ht hne
    exact List.mem_map.2 ⟨t, ht, by simp [hne]⟩

/-- Witness for C3, flipping only `completed` on a store holding the single
todo with id 1. -/
theorem C3_update_todo_frame_witness :
    ({ todos := [{ id := 1, title := "t", description := some "d",
                   completed := false, created_at := 2, updated_at := 3 }],
       notes := [], nextTodoId := 2, nextNoteId := 1 } : DB).todos.find?
        (fun t => t.id == 1) =
      some { id := 1, title := "t", description := some "d", completed := false,
             created_at := 2, updated_at := 3 } ∧
    ¬(({ completed := some true } : TodoUpdate).title = none ∧
      ({ completed := some true } : TodoUpdate).description = none ∧
      ({ completed := some true } : TodoUpdate).completed = none) ∧
    ∃ row db', update_todo
        { todos := [{ id := 1, title := "t", description := some "d",
                      completed := false, created_at := 2, updated_at := 3 }],
          notes := [], nextTodoId := 2, nextNoteId := 1 } 1
        { completed := some true } 9 = Except.ok (row, db') ∧
      row.id = 1 ∧ row.created_at = 2 ∧ row.updated_at = 9 := by
  refine ⟨by decide, by decide, ?_⟩
  obtain ⟨row, db', heq, hid, hcr, hup, -, ht, -, hd, -, -, -, -, -⟩ :=
    C3_update_todo_frame
      { todos := [{ id := 1, title := "t", description := some "d",
                    completed := false, created_at := 2, updated_at := 3 }],
        notes := [], nextTodoId := 2, nextNoteId := 1 } 1 9
      { completed := some true }
      { id := 1, title := "t", description := some "d", completed := false,
        created_at := 2, updated_at := 3 } (by decide) (by decide)
  exact ⟨row, db', heq, hid, hcr, hup⟩

/-! ## C7 -/

/-- Claim C7: listing todos with `?completed=b` returns a list holding
exactly the todos whose `completed` field equals `b`, and every list-todos
result — filtered or not — is sorted by `created_at` descending (newest
first). -/
theorem C7_list_todos_filter_and_order (db : DB) (b : Bool) (c : Option Bool) :
    (∀ t, t ∈ get_todos db (some b) ↔ t ∈ db.todos ∧ t.completed = b) ∧
    List.Sorted createdDescTodo (get_todos db c) := by
  constructor
  · intro t
    unfold get_todos
    rw [List.Perm.mem_iff (List.perm_insertionSort _ _)]
    simp [List.mem_filter]
  · exact List.sorted_insertionSort _ _

/-! ## C5 -/

/-- Claim C5: for a note stored under todo `A = n.todo_id` and any distinct
todo id `B`, update-note and delete-note addressed with `(B, n.id)` return
404 `"Note not found"` and change nothing (an error changes no row, and the
DELETE matched no row); conversely, a successful note update or deletion
requires a stored row matching both the note id and the todo id.  The
uniqueness hypothesis on `n.id` is the `SERIAL PRIMARY KEY` of `notes`. -/
theorem C5_note_scoped_to_both_ids (db : DB) (n : Note) (B : Nat) (c : String)
    (hmem : n ∈ db.notes)
    (huniq : ∀ m ∈ db.notes, m.id = n.id → m = n)
    (hB : B ≠ n.todo_id) :
    update_note db B n.id c = Except.error (ApiError.notFound "Note not found") ∧
    delete_note db B n.id = Except.error (ApiError.notFound "Note not found") ∧
    (∀ tid nid c2 row db2, update_note db tid nid c2 = Except.ok (row, db2) →
      row.id = nid ∧ row.todo_id = tid) ∧
    (∀ tid nid db2, delete_note db tid nid = Except.ok db2 →
      ∃ m ∈ db.notes, m.id = nid ∧ m.todo_id = tid) := by
  have hkey : ∀ m ∈ db.notes, (m.id == n.id && m.todo_id == B) = false := by
    intro m hm
    by_cases hid : m.id = n.id
    · have hmn := huniq m hm hid
      subst hmn
      have : m.todo_id ≠ B := fun h => hB h.symm
      simp [this]
    · simp [hid]
  have hfind : db.notes.find? (fun m => m.id == n.id && m.todo_id == B) = none :=
    List.find?_eq_none.2 (fun m hm => by simp [hkey m hm])
  have hfilter :
      db.notes.filter (fun m => !(m.id == n.id && m.todo_id == B)) = db.notes :=
    List.filter_eq_self.2 (fun m hm => by simp [hkey m hm])
  refine ⟨?_, ?_, ?_, ?_⟩
  · unfold update_note
    rw [hfind]
  · simp only [delete_note]
    rw [hfilter, if_pos rfl]
  · intro tid nid c2 row db2 h
    unfold update_note at h
    cases hf : db.notes.find? (fun m => m.id == nid && m.todo_id == tid) with
    | none => rw [hf] at h; exact Except.noConfusion h
    | some m =>
      rw [hf] at h
      have hp := List.find?_some hf
      simp only [Bool.and_eq_true, beq_iff_eq] at hp
      have hrow : ({ m with content := c2 } : Note) = row :=
        congrArg Prod.fst (Except.ok.inj h)
      rw [← hrow]
      exact hp
  · intro tid nid db2 h
    simp only [delete_note] at h
    by_cases hc :
        (db.notes.filter (fun m => !(m.id == nid && m.todo_id == tid))).length =
          db.notes.length
    · rw [if_pos hc] at h
      exact Except.noConfusion h
    · have hlt :
          (db.notes.filter (fun m => !(m.id == nid && m.todo_id == tid))).length <
            db.notes.length :=
        Nat.lt_of_le_of_ne (db.notes.length_filter_le _) hc
      obtain ⟨x, hx, hpx⟩ := List.length_filter_lt_length_iff_exists.1 hlt
      refine ⟨x, hx, ?_⟩
      simpa using hpx

/-- Witness for C5: a store holding todos 1 and 2 and the single note 1 under
todo 1; addressing the note via todo 2 returns "Note not found". -/
theorem C5_note_scoped_to_both_ids_witness :
    ({ id := 1, todo_id := 1, content := "n", created_at := 0 } : Note) ∈
      ({ todos :=
           [{ id := 1, title := "a", description := none, completed := false,
              created_at := 0, updated_at := 0 },
            { id := 2, title := "b", description := none, completed := false,
              created_at := 1, updated_at := 1 }],
         notes := [{ id := 1, todo_id := 1, content := "n", created_at := 0 }],
         nextTodoId := 3, nextNoteId := 2 } : DB).notes ∧
    update_note
      { todos :=
          [{ id := 1, title := "a", description := none, completed := false,
             created_at := 0, updated_at := 0 },
           { id := 2, title := "b", description := none, completed := false,
             created_at := 1, updated_at := 1 }],
        notes := [{ id := 1, todo_id := 1, content := "n", created_at := 0 }],
        nextTodoId := 3, nextNoteId := 2 } 2 1 "x" =
      Except.error (ApiError.notFound "Note not found") :=
  ⟨by decide,
   (C5_note_scoped_to_both_ids
      { todos :=
          [{ id := 1, title := "a", description := none, completed := false,
             created_at := 0, updated_at := 0 },
           { id := 2, title := "b", description := none, completed := false,
             created_at := 1, updated_at := 1 }],
        notes := [{ id := 1, todo_id := 1, content := "n", created_at := 0 }],
        nextTodoId := 3, nextNoteId := 2 }
      { id := 1, todo_id := 1, content := "n", created_at := 0 } 2 "x"
      (by decide) (by decide) (by decide)).1⟩

/-! ## C6 -/

/-- Claim C6: deleting a todo that exists succeeds and removes that todo
together with every note referencing it (the schema's cascade), leaving no
orphaned note row; deleting an id with no matching row returns 404
`"Todo not found"`, and the DELETE matched nothing, so the store is
unchanged. -/
theorem C6_delete_todo_cascade (db : DB) (tid : Nat) :
    ((∃ t ∈ db.todos, t.id = tid) →
      delete_todo db tid =
        Except.ok
          { db with todos := db.todos.filter (fun t => !(t.id == tid)),
                    notes := db.notes.filter (fun n => !(n.todo_id == tid)) } ∧
      (∀ t ∈ db.todos.filter (fun t => !(t.id == tid)), t.id ≠ tid) ∧
      (∀ n ∈ db.notes.filter (fun n => !(n.todo_id == tid)), n.todo_id ≠ tid)) ∧
    ((∀ t ∈ db.todos, t.id ≠ tid) →
      delete_todo db tid = Except.error (ApiError.notFound "Todo not found") ∧
      db.todos.filter (fun t => !(t.id == tid)) = db.todos) := by
  constructor
  · rintro ⟨t, ht, htid⟩
    have hlt : (db.todos.filter (fun t => !(t.id == tid))).length <
        db.todos.length :=
      List.length_filter_lt_length_iff_exists.2 ⟨t, ht, by simp [htid]⟩
    refine ⟨?_, ?_, ?_⟩
    · simp only [delete_todo]
      rw [if_neg (Nat.ne_of_lt hlt)]
    · intro t' ht'
      have := (List.mem_filter.1 ht').2
      simpa using this
    · intro m hm
      have := (List.mem_filter.1 hm).2
      simpa using this
  · intro hall
    have heq : db.todos.filter (fun t => !(t.id == tid)) = db.todos :=
      List.filter_eq_self.2 (fun t ht => by simp [hall t ht])
    refine ⟨?_, heq⟩
    simp only [delete_todo]
    rw [heq, if_pos rfl]

/-- Witness for C6: deleting todo 1 from a store with two todos and two notes
removes the todo and its note; no note referencing todo 1 remains. -/
theorem C6_delete_todo_cascade_witness :
    (∃ t ∈ twoTodoDB.todos, t.id = 1) ∧
    delete_todo twoTodoDB 1 =
      Except.ok
        { todos :=
            [{ id := 2, title := "b", description := none, completed := false,
               created_at := 1, updated_at := 1 }],
          notes := [{ id := 2, todo_id := 2, content := "n2", created_at := 1 }],
          nextTodoId := 3, nextNoteId := 3 } :=
  ⟨by decide,
   by
    have h := (C6_delete_todo_cascade twoTodoDB 1).1 (by decide)
    exact h.1⟩

/-! ## C10 -/

/-- Claim C10: when the addressed todo id does not exist at all, list-notes
and create-note check the todo first and report 404 `"Todo not found"`,
while update-note and delete-note perform no such check — their single
note-scoped statement matches no row and they report 404 `"Note not found"`
instead.  The hypothesis on `db.notes` is the foreign-key integrity of
`notes.todo_id`. -/
theorem C10_missing_todo_detail_strings (db : DB) (tid nid now : Nat)
    (c : String)
    (htodo : ∀ t ∈ db.todos, t.id ≠ tid)
    (hnote : ∀ m ∈ db.notes, m.todo_id ≠ tid) :
    get_notes db tid = Except.error (ApiError.notFound "Todo not found") ∧
    create_note db tid c now =
      Except.error (ApiError.notFound "Todo not found") ∧
    update_note db tid nid c =
      Except.error (ApiError.notFound "Note not found") ∧
    delete_note db tid nid =
      Except.error (ApiError.notFound "Note not found") := by
  have hany : db.todos.any (fun t => t.id == tid) = false := by
    rw [List.any_eq_false]
    intro t ht
    simp [htodo t ht]
  have hkey : ∀ m ∈ db.notes, (m.id == nid && m.todo_id == tid) = false := by
    intro m hm
    simp [hnote m hm]
  refine ⟨?_, ?_, ?_, ?_⟩
  · simp only [get_notes, hany, Bool.false_eq_true, if_false]
  · simp only [create_note, hany, Bool.false_eq_true, if_false]
  · unfold update_note
    rw [List.find?_eq_none.2 (fun m hm => by simp [hkey m hm])]
  · simp only [delete_note]
    rw [List.filter_eq_self.2 (fun m hm => by simp [hkey m hm]), if_pos rfl]

/-- Witness for C10, at the two-todo sample store, addressing the absent
todo id 9. -/
theorem C10_missing_todo_detail_strings_witness :
    (∀ t ∈ twoTodoDB.todos, t.id ≠ 9) ∧
    update_note twoTodoDB 9 1 "x" =
      Except.error (ApiError.notFound "Note not found") ∧
    get_notes twoTodoDB 9 =
      Except.error (ApiError.notFound "Todo not found") := by
  have h :=
    C10_missing_todo_detail_strings twoTodoDB 9 1 0 "x" (by decide) (by decide)
  exact ⟨by decide, h.2.2.1, h.1⟩

/-! ## C9 -/

/-- Every todo of the store produced by a successful partial update either
was already stored, or keeps the creation time of a stored todo while its
`updated_at` is the update's `CURRENT_TIMESTAMP`. -/
theorem mem_todos_of_update_todo_ok (db : DB) (tid now : Nat) (u : TodoUpdate)
    (r : Todo) (db' : DB)
    (hu : update_todo db tid u now = Except.ok (r, db'))
    (t : Todo) (ht : t ∈ db'.todos) :
    t ∈ db.todos ∨
      ∃ s ∈ db.todos, t.created_at = s.created_at ∧ t.updated_at = now := by
  unfold update_todo at hu
  cases hf : db.todos.find? (fun t => t.id == tid) with
  | none => rw [hf] at hu; exact Except.noConfusion hu
  | some existing =>
    rw [hf] at hu
    have hex : existing ∈ db.todos := List.mem_of_find?_eq_some hf
    by_cases hnone : u.title = none ∧ u.description = none ∧ u.completed = none
    · simp only [if_pos hnone] at hu
      obtain ⟨-, h2⟩ := Prod.mk.inj (Except.ok.inj hu)
      subst h2
      exact Or.inl ht
    · simp only [if_neg hnone] at hu
      obtain ⟨-, h2⟩ := Prod.mk.inj (Except.ok.inj hu)
      subst h2
      obtain ⟨s, hs, hfs⟩ := List.mem_map.1 ht
      by_cases hid : (s.id == tid) = true
      · rw [if_pos hid] at hfs
        subst hfs
        exact Or.inr ⟨existing, hex, rfl, rfl⟩
      · rw [if_neg hid] at hfs
        subst hfs
        exact Or.inl hs

/-- One handled request at a time `now` not earlier than every stored
creation time preserves the timestamp invariant, and afterwards every
creation time is bounded by `now`. -/
theorem applyOp_tsInv (db : DB) (op : Op) (now clock : Nat)
    (hinv : tsInv db) (hbound : timeBound db clock) (hle : clock ≤ now) :
    tsInv (applyOp db op now) ∧ timeBound (applyOp db op now) now := by
  have hbound' : timeBound db now := fun t ht => Nat.le_trans (hbound t ht) hle
  cases op with
  | createTodo t0 =>
    refine ⟨fun t ht => ?_, fun t ht => ?_⟩ <;>
      · simp only [applyOp, create_todo, List.mem_append,
          List.mem_singleton] at ht
        rcases ht with h | h
        · first
          | exact hinv t h
          | exact hbound' t h
        · subst h; exact Nat.le_refl now
  | updateTodo tid u =>
    simp only [applyOp]
    cases hu : update_todo db tid u now with
    | error e => exact ⟨hinv, hbound'⟩
    | ok p =>
      obtain ⟨r, db'⟩ := p
      refine ⟨fun t ht => ?_, fun t ht => ?_⟩ <;>
        · rcases mem_todos_of_update_todo_ok db tid now u r db' hu t ht with
            h | ⟨s, hs, hcr, hup⟩
          · first
            | exact hinv t h
            | exact hbound' t h
          · rw [hcr]
            first
            | · rw [hup]
                exact Nat.le_trans (hbound s hs) hle
            | exact Nat.le_trans (hbound s hs) hle
  | deleteTodo tid =>
    simp only [applyOp]
    cases hu : delete_todo db tid with
    | error e => exact ⟨hinv, hbound'⟩
    | ok db' =>
      simp only [delete_todo] at hu
      by_cases hc :
          (db.todos.filter (fun t => !(t.id == tid))).length = db.todos.length
      · rw [if_pos hc] at hu; exact Except.noConfusion hu
      · rw [if_neg hc] at hu
        obtain rfl := Except.ok.inj hu
        exact ⟨fun t ht => hinv t (List.mem_of_mem_filter ht),
               fun t ht => hbound' t (List.mem_of_mem_filter ht)⟩
  | createNote tid c =>
    simp only [applyOp]
    cases hu : create_note db tid c now with
    | error e => exact ⟨hinv, hbound'⟩
    | ok p =>
      obtain ⟨r, db'⟩ := p
      simp only [create_note] at hu
      by_cases hc : db.todos.any (fun t => t.id == tid) = true
      · simp only [if_pos hc] at hu
        obtain ⟨-, h2⟩ := Prod.mk.inj (Except.ok.inj hu)
        subst h2
        exact ⟨hinv, hbound'⟩
      · simp only [if_neg hc] at hu; exact Except.noConfusion hu
  | updateNote tid nid c =>
    simp only [applyOp]
    cases hu : update_note db tid nid c with
    | error e => exact ⟨hinv, hbound'⟩
    | ok p =>
      obtain ⟨r, db'⟩ := p
      unfold update_note at hu
      cases hf : db.notes.find? (fun m => m.id == nid && m.todo_id == tid) with
      | none => rw [hf] at hu; exact Except.noConfusion hu
      | some m =>
        rw [hf] at hu
        obtain ⟨-, h2⟩ := Prod.mk.inj (Except.ok.inj hu)
        subst h2
        exact ⟨hinv, hbound'⟩
  | deleteNote tid nid =>
    simp only [applyOp]
    cases hu : delete_note db tid nid with
    | error e => exact ⟨hinv, hbound'⟩
    | ok db' =>
      simp only [delete_note] at hu
      by_cases hc :
          (db.notes.filter
            (fun m => !(m.id == nid && m.todo_id == tid))).length =
            db.notes.length
      · rw [if_pos hc] at hu; exact Except.noConfusion hu
      · rw [if_neg hc] at hu
        obtain rfl := Except.ok.inj hu
        exact ⟨hinv, hbound'⟩

/-- Running timestamped requests whose times form a nondecreasing chain from
`clock` preserves the timestamp invariant. -/
theorem runOps_tsInv (ops : List (Op × Nat)) (db : DB) (clock : Nat)
    (hinv : tsInv db) (hbound : timeBound db clock)
    (hchron : List.Chain (fun a b => a ≤ b) clock (ops.map Prod.snd)) :
    tsInv (runOps db ops) := by
  induction ops generalizing db clock with
  | nil => exact hinv
  | cons p rest ih =>
    obtain ⟨op, now⟩ := p
    rw [List.map_cons] at hchron
    cases hchron with
    | cons hle hrest =>
      have h := applyOp_tsInv db op now clock hinv hbound hle
      exact ih (applyOp db op now) now h.1 h.2 hrest

/-- Claim C9: starting from the empty store and handling any sequence of
requests at nondecreasing times (`CURRENT_TIMESTAMP` does not go backwards),
every stored todo's `updated_at` is never earlier than its `created_at`:
creation sets the two equal, and every successful partial update moves
`updated_at` to the statement time, which is no earlier than the todo's
creation time. -/
theorem C9_updated_at_never_earlier (ops : List (Op × Nat))
    (hchron : List.Chain (fun a b => a ≤ b) 0 (ops.map Prod.snd)) :
    ∀ t ∈ (runOps DB.empty ops).todos, t.created_at ≤ t.updated_at :=
  runOps_tsInv ops DB.empty 0
    (fun t ht => absurd ht (List.not_mem_nil t))
    (fun t ht => absurd ht (List.not_mem_nil t)) hchron

/-- Witness for C9: create a todo at time 1, mark it completed at time 5. -/
theorem C9_updated_at_never_earlier_witness :
    List.Chain (fun a b => a ≤ b) 0 (sampleOps.map Prod.snd) ∧
    ∀ t ∈ (runOps DB.empty sampleOps).todos, t.created_at ≤ t.updated_at :=
  ⟨List.Chain.cons (by decide) (List.Chain.cons (by decide) List.Chain.nil),
   C9_updated_at_never_earlier sampleOps
     (List.Chain.cons (by decide) (List.Chain.cons (by decide) List.Chain.nil))⟩
